import Mathlib

/-!
Verification of the DeckRec service (src/app.py), a small backend that
recommends 8-card loadouts for a collectible-card game.  The Python
source is shallowly embedded below: module-level globals become function
parameters, HTTP handlers become pure functions returning
`Except HTTPExn result`, and the external HTTP calls (card-catalog fetch,
language-model provider) are represented by explicit outcome parameters.
-/

namespace DeckRec

/-- A card record from the external card-data API.  The code consumes only
`name` and `iconUrls.medium`; `iconMedium = none` models a record whose
`iconUrls` dict is absent/falsy or lacks a `medium` key (the code's
`card.get("iconUrls") or {}` followed by `.get("medium", "") or ""`). -/
structure Card where
  name : String
  iconMedium : Option String
deriving DecidableEq, Repr

/-- An HTTPException as raised by the handlers: a status code plus a
detail message. -/
structure HTTPExn where
  status_code : Nat
  detail : String
deriving DecidableEq, Repr

/-- Python's notion of ASCII whitespace as stripped by `str.strip()`. -/
def isPySpace (c : Char) : Bool :=
  c = ' ' || c = '\t' || c = '\n' || c = '\r' || c = '\x0b' || c = '\x0c'

/-- Python's `str.strip()` over the string's characters: drop leading and
trailing whitespace. -/
def pyStrip (s : List Char) : List Char :=
  ((s.dropWhile isPySpace).reverse.dropWhile isPySpace).reverse

/-- Python's `str.lower()` on one character, for the ASCII range the
service's card names and style labels live in. -/
def pyLowerChar (c : Char) : Char :=
  if 'A' ≤ c && c ≤ 'Z' then Char.ofNat (c.toNat + 32) else c

/-- Python's `str.lower()` over the string's characters. -/
def pyLower (s : List Char) : List Char := s.map pyLowerChar

/-- `s.strip()` as a `String` operation. -/
def pyStripStr (s : String) : String := String.mk (pyStrip s.toList)

/-- `s.strip().lower()` as applied to the style label in `recommend` and to
both the query name and each record name in `get_card_image`. -/
def normName (s : String) : String := String.mk (pyLower (pyStrip s.toList))

/-- `get_card_image` (src/app.py lines 92-99): linear scan of the cached
catalog; first record whose stripped, lowercased name equals the stripped,
lowercased query wins; its medium icon URL is returned (empty string when
the record has none); no match yields the empty string. -/
def get_card_image (card_name : String) : List Card → String
  | [] => ""
  | card :: rest =>
    if normName card.name = normName card_name then card.iconMedium.getD ""
    else get_card_image card_name rest

/-- The static loadout table `decks_by_bracket` (src/app.py lines 122-143),
as an association list preserving the source's insertion order (Python
dicts preserve insertion order, and `list(d.keys())` enumerates in it). -/
def decks_by_bracket : List (String × List (String × List String)) :=
  [ ("<2000",
      [ ("attack", ["Hog Rider", "Knight", "Fire Spirits", "Zap", "Valkyrie", "Skeleton Army", "Arrows", "Musketeer"]),
        ("defense", ["Knight", "Mini PEKKA", "Archers", "Tombstone", "Arrows", "Fireball", "Baby Dragon", "Valkyrie"]),
        ("balance", ["Giant", "Mini PEKKA", "Musketeer", "Fireball", "Skeleton Army", "Arrows", "Knight", "Zap"]) ]),
    ("2000-4000",
      [ ("attack", ["Hog Rider", "Rage", "Mini PEKKA", "Valkyrie", "Arrows", "Fire Spirits", "Knight", "Musketeer"]),
        ("defense", ["Mega Knight", "Archers", "Tombstone", "Fireball", "Arrows", "Valkyrie", "Electro Wizard", "Knight"]),
        ("balance", ["Golem", "Musketeer", "Valkyrie", "Arrows", "Zap", "Skeleton Army", "Knight", "Baby Dragon"]) ]),
    ("4000-6000",
      [ ("attack", ["Balloon", "Miner", "Zap", "Inferno Tower", "Goblin Barrel", "Skeleton Army", "Knight", "Musketeer"]),
        ("defense", ["Mega Knight", "Electro Wizard", "Archers", "Tombstone", "Fireball", "Arrows", "Valkyrie", "Knight"]),
        ("balance", ["Golem", "Lava Hound", "Miner", "Zap", "Arrows", "Baby Dragon", "Knight", "Mega Minion"]) ]),
    (">6000",
      [ ("attack", ["E-Giant", "Ram Rider", "Lightning", "Zap", "Bandit", "Musketeer", "Electro Wizard", "Skeleton Army"]),
        ("defense", ["P.E.K.K.A", "Mega Knight", "Electro Wizard", "Tornado", "Arrows", "Fireball", "Goblin Gang", "Valkyrie"]),
        ("balance", ["Royal Hogs", "Zappies", "Fireball", "Zap", "Musketeer", "Knight", "Baby Dragon", "Electro Wizard"]) ]) ]

/-- Association-list lookup, mirroring Python's `key in dict` / `dict[key]`
on the embedded table. -/
def findVal {α : Type} (k : String) : List (String × α) → Option α
  | [] => none
  | (k', v) :: rest => if k' = k then some v else findVal k rest

/-- The keys of an association list in order, mirroring `list(d.keys())`. -/
def keysOf {α : Type} (l : List (String × α)) : List String := l.map Prod.fst

/-- Python's `repr` of a list of (quote-free) strings, as interpolated into
the handler's error messages by the f-string `{list(d.keys())}`. -/
def pyListRepr (l : List String) : String :=
  "[" ++ String.intercalate ", " (l.map (fun s => "\x27" ++ s ++ "\x27")) ++ "]"

/-- One entry of a returned deck: the dict `{"name": c, "image": ...}`. -/
structure DeckEntry where
  name : String
  image : String
deriving DecidableEq, Repr

/-- The baseline handler `recommend` (src/app.py lines 162-174).  The cached
catalog `cards_data` (a module global in the source) is an explicit
parameter.  Raised `HTTPException`s become `Except.error`. -/
def recommend (bracket style : String) (cards_data : List Card) :
    Except HTTPExn (List DeckEntry) :=
  let bracket := pyStripStr bracket
  let style := normName style
  match findVal bracket decks_by_bracket with
  | none =>
      .error ⟨400, "Invalid bracket. Use: " ++ pyListRepr (keysOf decks_by_bracket)⟩
  | some sub =>
      match findVal style sub with
      | none =>
          .error ⟨400, "Invalid style. Use: " ++ pyListRepr (keysOf sub)⟩
      | some cards =>
          .ok (cards.map (fun c => ⟨c, get_card_image c cards_data⟩))

/-- The outcome of the single `requests.get` to the card API inside
`fetch_all_cards`: either the call raised (network error, timeout, ...)
with message `str(e)`, or it returned a response with a status code, a
raw text body, and the result of parsing the body.  `items = .ok l`
means `r.json()` succeeded on a JSON object and `data.get("items", [])`
yielded `l`; `items = .error e` means `r.json()` raised or the parsed
value was not a dict (so `.get` raised), with exception message `e`. -/
inductive FetchOutcome where
  | exc (msg : String)
  | resp (status : Nat) (text : String) (items : Except String (List Card))
deriving Repr

/-- `fetch_all_cards` (src/app.py lines 71-85), returning the new catalog
together with the new value of the global `_last_clash_error`.  On a 200
response the error is first cleared and the body parsed; a parse
exception lands in the `except` clause which records `str(e)`; a non-200
status records `r.text`; a request exception records its message.  Every
path returns, so the function never throws. -/
def fetch_all_cards (o : FetchOutcome) : List Card × Option String :=
  match o with
  | .exc e => ([], some e)
  | .resp status text items =>
      if status = 200 then
        match items with
        | .ok l => (l, none)
        | .error e => ([], some e)
      else ([], some text)

/-- The `token_masked` field of the `/debug/clash` diagnostics handler
(src/app.py line 109): `(key[:6] + "..." + key[-4:]) if key else ""`.
The credential is modelled as its list of characters so that Python's
slicing (`key[:6]` = first 6 characters, `key[-4:]` = last 4, whole
string when shorter) is `List.take` / `List.drop (length - 4)`. -/
def token_masked (key : List Char) : List Char :=
  if key = [] then []
  else key.take 6 ++ ['.', '.', '.'] ++ key.drop (key.length - 4)

/-- The fields of the `/debug/clash` response that depend on the modelled
state (src/app.py lines 102-116); the handler only reads state. -/
structure DebugInfo where
  token_length : Nat
  tokenMaskedField : List Char
  last_clash_error : Option String
  cards_cached : Nat
  auth_ok : Bool
deriving DecidableEq, Repr

/-- The `/debug/clash` handler `debug_clash` (src/app.py lines 102-116)
over the process state it reads: the stripped credential, the cached
catalog and the recorded last fetch error. -/
def debug_clash (key : List Char) (cards_data : List Card)
    (lastErr : Option String) : DebugInfo :=
  { token_length := key.length
    tokenMaskedField := token_masked key
    last_clash_error := lastErr
    cards_cached := cards_data.length
    auth_ok := decide (0 < cards_data.length) && decide (lastErr = none) }

/-- The `deck` field of the provider's parsed JSON response: either a JSON
array whose entries are the card-name strings, or a value that is not an
array (`isinstance(deck_cards, list)` fails). -/
inductive DeckField where
  | strs (l : List String)
  | nonList
deriving DecidableEq, Repr

/-- The provider response after `json.loads`, restricted to the four
fields the handler reads; `none` models an absent field, for which
`result.get(..., [])` substitutes `[]`.  The `insights`,
`playstyle_tips` and `weaknesses` fields are echoed verbatim, so they
are kept as the lists of strings the provider sent. -/
structure ParsedObj where
  deck : Option DeckField
  insights : Option (List String)
  playstyle_tips : Option (List String)
  weaknesses : Option (List String)
deriving DecidableEq, Repr

/-- Result of `json.loads(raw)` inside `recommend_ai`: `fail` when
`json.loads` raised (raw is not valid JSON) or the parsed value is not a
dict (so `result.get` raised `AttributeError`); both are caught by the
same `except` clause.  `ok o` is a successfully parsed object. -/
inductive ParsedResult where
  | fail
  | ok (o : ParsedObj)
deriving DecidableEq, Repr

/-- The successful result shape of `recommend_deck_ai`. -/
structure AIResult where
  deck : List DeckEntry
  insights : List String
  playstyle_tips : List String
  weaknesses : List String
deriving DecidableEq, Repr

/-- The detail message of the validation failure in `recommend_ai`
(src/app.py line 289): `f"AI response was not valid JSON. Raw: {raw[:500]}"`. -/
def aiParseErrMsg (raw : String) : String :=
  "AI response was not valid JSON. Raw: " ++ String.mk (raw.toList.take 500)

set_option linter.unusedVariables false in
/-- The AI handler `recommend_ai` (src/app.py lines 237-298).  The cached
catalog is a parameter; the provider round trip (`_llm_chat`) is
represented by its observable result: the raw response string `raw` and
the outcome `parsed` of `json.loads(raw)`.  The handler first rejects an
empty catalog with a 503 (before the prompt is even built, so before any
provider contact), then validates that the parsed response's `deck`
field is a list of exactly 8 entries, and on success resolves icons and
echoes the three narrative fields (absent fields become `[]`).
(`bracket`, `style` and the optional preference fields are only
interpolated into the prompt in the source, hence unused here.) -/
def recommend_ai (cards_data : List Card) (bracket style : String)
    (favorite_card hate_card notes : Option String)
    (raw : String) (parsed : ParsedResult) :
    Except HTTPExn AIResult :=
  if cards_data = [] then
    .error ⟨503, "Cards not loaded from Clash API yet. Check /debug/clash"⟩
  else
    match parsed with
    | .fail => .error ⟨500, aiParseErrMsg raw⟩
    | .ok o =>
        match o.deck.getD (.strs []) with
        | .nonList => .error ⟨500, aiParseErrMsg raw⟩
        | .strs deck_cards =>
            if deck_cards.length = 8 then
              .ok { deck := deck_cards.map (fun c => ⟨c, get_card_image c cards_data⟩)
                    insights := o.insights.getD []
                    playstyle_tips := o.playstyle_tips.getD []
                    weaknesses := o.weaknesses.getD [] }
            else .error ⟨500, aiParseErrMsg raw⟩

/-! ## Helper lemmas -/

/-- A key absent from an association list's key set is not found. -/
theorem findVal_eq_none_of_not_mem {α : Type} (k : String) (l : List (String × α))
    (h : k ∉ keysOf l) : findVal k l = none := by
  induction l with
  | nil => rfl
  | cons p rest ih =>
    simp only [keysOf, List.map_cons, List.mem_cons, not_or] at h
    simp only [findVal]
    rw [if_neg (fun he => h.1 he.symm), ih (by simpa [keysOf] using h.2)]

/-- A found binding is a member of the association list. -/
theorem findVal_mem {α : Type} {k : String} {l : List (String × α)} {v : α}
    (h : findVal k l = some v) : (k, v) ∈ l := by
  induction l with
  | nil => simp [findVal] at h
  | cons p rest ih =>
    rcases p with ⟨k', w⟩
    simp only [findVal] at h
    by_cases he : k' = k
    · rw [if_pos he] at h
      subst he
      cases h
      exact List.mem_cons_self _ _
    · rw [if_neg he] at h
      exact List.mem_cons_of_mem _ (ih h)

/-- A key present in the key set is found. -/
theorem exists_findVal_of_mem_keys {α : Type} {k : String} {l : List (String × α)}
    (h : k ∈ keysOf l) : ∃ v, findVal k l = some v := by
  induction l with
  | nil => simp [keysOf] at h
  | cons p rest ih =>
    simp only [keysOf, List.map_cons, List.mem_cons] at h
    by_cases he : p.1 = k
    · exact ⟨p.2, by simp [findVal, if_pos he]⟩
    · rcases h with h | h
      · exact absurd h.symm he
      · rcases ih (by simpa [keysOf] using h) with ⟨v, hv⟩
        exact ⟨v, by simp [findVal, if_neg he, hv]⟩

/-- A stripped bracket outside the table's key set yields the 400
invalid-bracket error. -/
theorem recommend_invalid_bracket (bracket style : String) (cat : List Card)
    (h : pyStripStr bracket ∉ keysOf decks_by_bracket) :
    recommend bracket style cat =
      .error ⟨400, "Invalid bracket. Use: " ++ pyListRepr (keysOf decks_by_bracket)⟩ := by
  simp only [recommend, findVal_eq_none_of_not_mem _ _ h]

/-- A valid bracket with a normalised style outside its sub-table's key set
yields the 400 invalid-style error. -/
theorem recommend_invalid_style (bracket style : String) (cat : List Card)
    (sub : List (String × List String))
    (hsub : findVal (pyStripStr bracket) decks_by_bracket = some sub)
    (h : normName style ∉ keysOf sub) :
    recommend bracket style cat =
      .error ⟨400, "Invalid style. Use: " ++ pyListRepr (keysOf sub)⟩ := by
  simp only [recommend, hsub, findVal_eq_none_of_not_mem _ _ h]

/-- With a non-empty catalog and a parsed provider response whose deck field
is a list of exactly 8 names, the AI handler succeeds, resolving icons and
echoing the three narrative fields. -/
theorem recommend_ai_ok (cat : List Card) (b s : String)
    (f h n : Option String) (raw : String)
    (deckL ins tips wks : List String)
    (hne : cat ≠ []) (h8 : deckL.length = 8) :
    recommend_ai cat b s f h n raw
        (.ok ⟨some (.strs deckL), some ins, some tips, some wks⟩) =
      .ok ⟨deckL.map fun c => ⟨c, get_card_image c cat⟩, ins, tips, wks⟩ := by
  simp only [recommend_ai, if_neg hne, Option.getD_some, if_pos h8]

/-- Every sub-table reachable from the loadout table has exactly the three
style keys attack, defense, balance. -/
theorem sub_keys_of_findVal {k : String} {sub : List (String × List String)}
    (h : findVal k decks_by_bracket = some sub) :
    keysOf sub = ["attack", "defense", "balance"] := by
  have hmem := findVal_mem h
  have hall : ∀ p ∈ decks_by_bracket, keysOf p.2 = ["attack", "defense", "balance"] := by
    decide
  exact hall _ hmem

/-! ## Claim theorems -/

/-- Claim C1: for every (bracket, style) key path of the static loadout
table, the baseline handler succeeds and returns a deck of exactly 8
entries whose names are, in order, exactly the table's names, each paired
with a freshly resolved icon (`get_card_image` against the current catalog
snapshot).  Determinism and freedom from side effects hold because
`recommend` is a pure function of the request and the catalog snapshot. -/
theorem baseline_table_paths_succeed :
    ∀ (cat : List Card) (b : String) (sub : List (String × List String)),
      (b, sub) ∈ decks_by_bracket →
      ∀ (s : String) (cards : List String), (s, cards) ∈ sub →
        recommend b s cat = .ok (cards.map fun c => ⟨c, get_card_image c cat⟩) ∧
        cards.length = 8 := by
  intro cat b sub hb s cards hs
  fin_cases hb <;> fin_cases hs <;> exact ⟨rfl, rfl⟩

/-- Witness for C1 at the bottom bracket with style attack and an empty
catalog. -/
theorem baseline_table_paths_succeed_wit :
    recommend "<2000" "attack" [] =
      .ok ((["Hog Rider", "Knight", "Fire Spirits", "Zap", "Valkyrie", "Skeleton Army",
             "Arrows", "Musketeer"]).map fun c => ⟨c, get_card_image c []⟩) ∧
    (["Hog Rider", "Knight", "Fire Spirits", "Zap", "Valkyrie", "Skeleton Army",
      "Arrows", "Musketeer"] : List String).length = 8 :=
  baseline_table_paths_succeed [] "<2000"
    [ ("attack", ["Hog Rider", "Knight", "Fire Spirits", "Zap", "Valkyrie", "Skeleton Army", "Arrows", "Musketeer"]),
      ("defense", ["Knight", "Mini PEKKA", "Archers", "Tombstone", "Arrows", "Fireball", "Baby Dragon", "Valkyrie"]),
      ("balance", ["Giant", "Mini PEKKA", "Musketeer", "Fireball", "Skeleton Army", "Arrows", "Knight", "Zap"]) ]
    (by decide) "attack"
    ["Hog Rider", "Knight", "Fire Spirits", "Zap", "Valkyrie", "Skeleton Army", "Arrows", "Musketeer"]
    (by decide)

/-- Claim C2: a request whose stripped bracket is not a key of the loadout
table fails with a 400 error whose message enumerates the valid bracket
set, whatever the style (so the bracket check precedes the style check);
a valid bracket with a stripped, lowercased style outside that bracket's
sub-table fails with a 400 error whose message enumerates that bracket's
valid style set.  `.error` carries no deck. -/
theorem baseline_rejects_invalid :
    ∀ (bracket style : String) (cat : List Card),
      (pyStripStr bracket ∉ keysOf decks_by_bracket →
        recommend bracket style cat =
          .error ⟨400, "Invalid bracket. Use: " ++ pyListRepr (keysOf decks_by_bracket)⟩) ∧
      (∀ sub, findVal (pyStripStr bracket) decks_by_bracket = some sub →
        normName style ∉ keysOf sub →
        recommend bracket style cat =
          .error ⟨400, "Invalid style. Use: " ++ pyListRepr (keysOf sub)⟩) := by
  intro bracket style cat
  exact ⟨fun h => recommend_invalid_bracket bracket style cat h,
         fun sub hsub h => recommend_invalid_style bracket style cat sub hsub h⟩

/-- Witness for C2: bracket 9999 is rejected with the bracket message; a
valid bracket with style flying is rejected with the style message. -/
theorem baseline_rejects_invalid_wit :
    recommend "9999" "attack" [] =
      .error ⟨400, "Invalid bracket. Use: " ++ pyListRepr (keysOf decks_by_bracket)⟩ ∧
    recommend "<2000" "flying" [] =
      .error ⟨400, "Invalid style. Use: " ++
        pyListRepr (keysOf
          [ ("attack", ["Hog Rider", "Knight", "Fire Spirits", "Zap", "Valkyrie", "Skeleton Army", "Arrows", "Musketeer"]),
            ("defense", ["Knight", "Mini PEKKA", "Archers", "Tombstone", "Arrows", "Fireball", "Baby Dragon", "Valkyrie"]),
            ("balance", ["Giant", "Mini PEKKA", "Musketeer", "Fireball", "Skeleton Army", "Arrows", "Knight", "Zap"]) ])⟩ :=
  ⟨(baseline_rejects_invalid "9999" "attack" []).1 (by decide),
   (baseline_rejects_invalid "<2000" "flying" []).2 _ (by decide) (by decide)⟩

/-- Claim C3: the icon resolver matches case-insensitively (and
whitespace-insensitively at the edges) and exactly via `normName`
equality, returns the first matching record's medium URL in catalog
order, and returns the empty string (without raising: it is a total
function) when no record matches; the knight capitalisation examples all
resolve to U. -/
theorem get_card_image_spec :
    (∀ (name : String) (cat : List Card),
        (∀ c ∈ cat, normName c.name ≠ normName name) → get_card_image name cat = "") ∧
    (∀ (name : String) (pre : List Card) (c : Card) (post : List Card),
        (∀ c2 ∈ pre, normName c2.name ≠ normName name) →
        normName c.name = normName name →
        get_card_image name (pre ++ c :: post) = c.iconMedium.getD "") ∧
    get_card_image "knight" [⟨"Knight", some "U"⟩] = "U" ∧
    get_card_image "Knight" [⟨"Knight", some "U"⟩] = "U" ∧
    get_card_image "KNIGHT" [⟨"Knight", some "U"⟩] = "U" := by
  refine ⟨?_, ?_, by decide, by decide, by decide⟩
  · intro name cat h
    induction cat with
    | nil => rfl
    | cons d rest ih =>
      simp only [get_card_image]
      rw [if_neg (h d (List.mem_cons_self d rest)),
          ih (fun c hc => h c (List.mem_cons_of_mem d hc))]
  · intro name pre c post hpre hc
    induction pre with
    | nil => simp only [List.nil_append, get_card_image, if_pos hc]
    | cons d rest ih =>
      simp only [List.cons_append, get_card_image, List.append_eq]
      rw [if_neg (hpre d (List.mem_cons_self d rest)),
          ih (fun c2 h2 => hpre c2 (List.mem_cons_of_mem d h2))]

/-- Witness for C3: an unknown name resolves to the empty string, and with
duplicate matches the first record in catalog order wins. -/
theorem get_card_image_spec_wit :
    get_card_image "Wizard" [⟨"Knight", some "U"⟩] = "" ∧
    get_card_image "knight"
      [⟨"Zap", some "V"⟩, ⟨"Knight", some "U"⟩, ⟨"knight", some "W"⟩] =
      (some "U").getD "" :=
  ⟨get_card_image_spec.1 "Wizard" [⟨"Knight", some "U"⟩] (by decide),
   get_card_image_spec.2.1 "knight" [⟨"Zap", some "V"⟩] ⟨"Knight", some "U"⟩
     [⟨"knight", some "W"⟩] (by decide) (by decide)⟩

/-- Claim C4: with a non-empty catalog, an unparseable provider response,
a non-list deck field, a deck list of the wrong length, or an absent deck
field (which defaults to the empty list) all fail with the 500 validation
error whose message carries the 500-character excerpt of the raw
response; a deck field of exactly 8 names succeeds, returning the 8 names
with resolved icons and echoing insights, playstyle tips and weaknesses
verbatim. -/
theorem ai_response_validation :
    ∀ (cat : List Card) (b s : String) (f h n : Option String) (raw : String),
      cat ≠ [] →
      (recommend_ai cat b s f h n raw .fail = .error ⟨500, aiParseErrMsg raw⟩) ∧
      (∀ o : ParsedObj, o.deck = some .nonList →
        recommend_ai cat b s f h n raw (.ok o) = .error ⟨500, aiParseErrMsg raw⟩) ∧
      (∀ (o : ParsedObj) (l : List String), o.deck = some (.strs l) → l.length ≠ 8 →
        recommend_ai cat b s f h n raw (.ok o) = .error ⟨500, aiParseErrMsg raw⟩) ∧
      (∀ o : ParsedObj, o.deck = none →
        recommend_ai cat b s f h n raw (.ok o) = .error ⟨500, aiParseErrMsg raw⟩) ∧
      (∀ (deckL ins tips wks : List String), deckL.length = 8 →
        recommend_ai cat b s f h n raw
            (.ok ⟨some (.strs deckL), some ins, some tips, some wks⟩) =
          .ok ⟨deckL.map fun c => ⟨c, get_card_image c cat⟩, ins, tips, wks⟩) := by
  intro cat b s f h n raw hne
  refine ⟨?_, ?_, ?_, ?_, fun deckL ins tips wks h8 => recommend_ai_ok cat b s f h n raw deckL ins tips wks hne h8⟩
  · simp only [recommend_ai, if_neg hne]
  · intro o hd
    simp only [recommend_ai, if_neg hne, hd, Option.getD_some]
  · intro o l hd h8
    simp only [recommend_ai, if_neg hne, hd, Option.getD_some, if_neg h8]
  · intro o hd
    simp only [recommend_ai, if_neg hne, hd, Option.getD_none]
    rfl

/-- Witness for C4: with a one-card catalog, an unparseable response fails,
a 7-name deck fails, and an 8-name deck succeeds with echoed fields. -/
theorem ai_response_validation_wit :
    recommend_ai [⟨"Knight", some "U"⟩] "b" "s" none none none "oops" .fail =
      .error ⟨500, aiParseErrMsg "oops"⟩ ∧
    recommend_ai [⟨"Knight", some "U"⟩] "b" "s" none none none "seven"
        (.ok ⟨some (.strs ["K1", "K2", "K3", "K4", "K5", "K6", "K7"]),
              some ["i"], some ["t"], some ["w"]⟩) =
      .error ⟨500, aiParseErrMsg "seven"⟩ ∧
    recommend_ai [⟨"Knight", some "U"⟩] "b" "s" none none none "fine"
        (.ok ⟨some (.strs ["Knight", "Knight", "Knight", "Knight",
                           "Knight", "Knight", "Knight", "Knight"]),
              some ["i"], some ["t"], some ["w"]⟩) =
      .ok ⟨(["Knight", "Knight", "Knight", "Knight",
             "Knight", "Knight", "Knight", "Knight"]).map
              (fun c => ⟨c, get_card_image c [⟨"Knight", some "U"⟩]⟩),
           ["i"], ["t"], ["w"]⟩ :=
  ⟨(ai_response_validation [⟨"Knight", some "U"⟩] "b" "s" none none none "oops"
      (by decide)).1,
   (ai_response_validation [⟨"Knight", some "U"⟩] "b" "s" none none none "seven"
      (by decide)).2.2.1 _ ["K1", "K2", "K3", "K4", "K5", "K6", "K7"] rfl (by decide),
   (ai_response_validation [⟨"Knight", some "U"⟩] "b" "s" none none none "fine"
      (by decide)).2.2.2.2
     ["Knight", "Knight", "Knight", "Knight", "Knight", "Knight", "Knight", "Knight"]
     ["i"] ["t"] ["w"] (by decide)⟩

/-- Claim C5: with an empty cached catalog the AI handler fails with the
503 service-unavailable error pointing at the diagnostics endpoint, for
every bracket, style, optional field and provider outcome; in the source
this guard precedes the prompt construction and the provider call, which
is why the result does not depend on the provider parameters `raw` and
`parsed` at all. -/
theorem ai_empty_catalog_503 :
    ∀ (b s : String) (f h n : Option String) (raw : String) (parsed : ParsedResult),
      recommend_ai [] b s f h n raw parsed =
        .error ⟨503, "Cards not loaded from Clash API yet. Check /debug/clash"⟩ :=
  fun _ _ _ _ _ _ _ => rfl

/-- Counterexample to claim C6 as stated: the AI handler serves a request
whose bracket 9999 is outside the 4 known bracket labels and whose style
is outside the 3 known style labels, returning a deck instead of an
invalid-request error — `recommend_ai` performs no bracket/style
membership validation. -/
theorem ai_serves_invalid_bracket_cex :
    "9999" ∉ keysOf decks_by_bracket ∧
    "anything" ∉ ["attack", "defense", "balance"] ∧
    recommend_ai [⟨"Knight", some "U"⟩] "9999" "anything" none none none "raw"
        (.ok ⟨some (.strs ["Knight", "Knight", "Knight", "Knight",
                           "Knight", "Knight", "Knight", "Knight"]),
              some [], some [], some []⟩) =
      .ok ⟨[⟨"Knight", "U"⟩, ⟨"Knight", "U"⟩, ⟨"Knight", "U"⟩, ⟨"Knight", "U"⟩,
            ⟨"Knight", "U"⟩, ⟨"Knight", "U"⟩, ⟨"Knight", "U"⟩, ⟨"Knight", "U"⟩],
           [], [], []⟩ := by
  refine ⟨by decide, by decide, ?_⟩
  rfl

/-- Amended claim C6: only the baseline handler validates bracket and
style membership — a baseline request whose stripped bracket is outside
the 4 known bracket labels, or whose lowercased style is outside the 3
known style labels, is rejected with a 400 invalid-request error; the AI
handler performs no such validation and serves any bracket and style,
given a non-empty catalog and a well-formed 8-name provider response. -/
theorem bracket_style_validation_amended :
    ∀ (bracket style : String) (cat : List Card),
      (pyStripStr bracket ∉ ["<2000", "2000-4000", "4000-6000", ">6000"] →
        ∃ msg, recommend bracket style cat = .error ⟨400, msg⟩) ∧
      (pyStripStr bracket ∈ ["<2000", "2000-4000", "4000-6000", ">6000"] →
        normName style ∉ ["attack", "defense", "balance"] →
        ∃ msg, recommend bracket style cat = .error ⟨400, msg⟩) ∧
      (∀ (f h n : Option String) (raw : String) (deckL ins tips wks : List String),
        cat ≠ [] → deckL.length = 8 →
        recommend_ai cat bracket style f h n raw
            (.ok ⟨some (.strs deckL), some ins, some tips, some wks⟩) =
          .ok ⟨deckL.map fun c => ⟨c, get_card_image c cat⟩, ins, tips, wks⟩) := by
  intro bracket style cat
  have hkeys : keysOf decks_by_bracket = ["<2000", "2000-4000", "4000-6000", ">6000"] := by
    decide
  refine ⟨?_, ?_, fun f h n raw deckL ins tips wks hne h8 =>
    recommend_ai_ok cat bracket style f h n raw deckL ins tips wks hne h8⟩
  · intro hb
    exact ⟨_, recommend_invalid_bracket bracket style cat (hkeys ▸ hb)⟩
  · intro hb hs
    rcases exists_findVal_of_mem_keys (l := decks_by_bracket) (hkeys ▸ hb) with ⟨sub, hsub⟩
    refine ⟨_, recommend_invalid_style bracket style cat sub hsub ?_⟩
    rw [sub_keys_of_findVal hsub]
    exact hs

/-- Witness for the amended C6: the baseline handler rejects bracket 9999
and rejects style flying on a valid bracket, while the AI handler serves
bracket 9999. -/
theorem bracket_style_validation_amended_wit :
    (∃ msg, recommend "9999" "attack" [] = .error ⟨400, msg⟩) ∧
    (∃ msg, recommend "<2000" "flying" [] = .error ⟨400, msg⟩) ∧
    recommend_ai [⟨"Knight", some "U"⟩] "9999" "flying" none none none "raw"
        (.ok ⟨some (.strs ["A", "B", "C", "D", "E", "F", "G", "H"]),
              some ["i"], some ["t"], some ["w"]⟩) =
      .ok ⟨(["A", "B", "C", "D", "E", "F", "G", "H"]).map
             (fun c => ⟨c, get_card_image c [⟨"Knight", some "U"⟩]⟩),
           ["i"], ["t"], ["w"]⟩ :=
  ⟨(bracket_style_validation_amended "9999" "attack" []).1 (by decide),
   (bracket_style_validation_amended "<2000" "flying" []).2.1 (by decide) (by decide),
   (bracket_style_validation_amended "9999" "flying" [⟨"Knight", some "U"⟩]).2.2
     none none none "raw" ["A", "B", "C", "D", "E", "F", "G", "H"]
     ["i"] ["t"] ["w"] (by decide) (by decide)⟩

/-- Claim C7: the catalog fetch never throws (it is a total function of
the HTTP outcome): on a 200 response with a parseable body it returns the
item list and clears the recorded error; on a request exception, a
non-200 status, or an unparseable 200 body it returns the empty list and
records a diagnostic message; and in every outcome either the catalog is
empty or the error is cleared. -/
theorem fetch_all_cards_spec :
    (∀ (t : String) (l : List Card), fetch_all_cards (.resp 200 t (.ok l)) = (l, none)) ∧
    (∀ e : String, fetch_all_cards (.exc e) = ([], some e)) ∧
    (∀ (s : Nat) (t : String) (i : Except String (List Card)), s ≠ 200 →
      fetch_all_cards (.resp s t i) = ([], some t)) ∧
    (∀ (t e : String), fetch_all_cards (.resp 200 t (.error e)) = ([], some e)) ∧
    (∀ o : FetchOutcome, (fetch_all_cards o).1 = [] ∨ (fetch_all_cards o).2 = none) := by
  refine ⟨fun _ _ => rfl, fun _ => rfl, ?_, fun _ _ => rfl, ?_⟩
  · intro s t i h
    simp only [fetch_all_cards, if_neg h]
  · intro o
    match o with
    | .exc e => exact Or.inl rfl
    | .resp s t i =>
      by_cases h : s = 200
      · subst h
        match i with
        | .ok l => exact Or.inr rfl
        | .error e => exact Or.inl rfl
      · left
        simp only [fetch_all_cards, if_neg h]

/-- Witness for C7: a 403 response caches an empty list and records the
response text. -/
theorem fetch_all_cards_spec_wit :
    fetch_all_cards (.resp 403 "accessDenied" (.ok [])) = ([], some "accessDenied") :=
  fetch_all_cards_spec.2.2.1 403 "accessDenied" (.ok []) (by decide)

/-- Claim C8: the static loadout table has exactly the 4 bracket keys,
every bracket defines exactly the styles attack, defense, balance, every
style list has exactly 8 card names, and there are 12 loadouts in total.
The table is a Lean constant (as it is a module-level literal in the
source that no code mutates), so runtime immutability is inherent in the
embedding. -/
theorem static_table_invariant :
    keysOf decks_by_bracket = ["<2000", "2000-4000", "4000-6000", ">6000"] ∧
    decks_by_bracket.length = 4 ∧
    (∀ p ∈ decks_by_bracket, keysOf p.2 = ["attack", "defense", "balance"]) ∧
    (∀ p ∈ decks_by_bracket, ∀ q ∈ p.2, q.2.length = 8) ∧
    (decks_by_bracket.map (fun p => p.2.length)).sum = 12 := by
  decide

/-- Witness for C8 at the bottom bracket and its attack list. -/
theorem static_table_invariant_wit :
    keysOf
      [ ("attack", ["Hog Rider", "Knight", "Fire Spirits", "Zap", "Valkyrie", "Skeleton Army", "Arrows", "Musketeer"]),
        ("defense", ["Knight", "Mini PEKKA", "Archers", "Tombstone", "Arrows", "Fireball", "Baby Dragon", "Valkyrie"]),
        ("balance", ["Giant", "Mini PEKKA", "Musketeer", "Fireball", "Skeleton Army", "Arrows", "Knight", "Zap"]) ] =
      ["attack", "defense", "balance"] ∧
    (["Hog Rider", "Knight", "Fire Spirits", "Zap", "Valkyrie", "Skeleton Army",
      "Arrows", "Musketeer"] : List String).length = 8 :=
  ⟨static_table_invariant.2.2.1
     ("<2000",
       [ ("attack", ["Hog Rider", "Knight", "Fire Spirits", "Zap", "Valkyrie", "Skeleton Army", "Arrows", "Musketeer"]),
         ("defense", ["Knight", "Mini PEKKA", "Archers", "Tombstone", "Arrows", "Fireball", "Baby Dragon", "Valkyrie"]),
         ("balance", ["Giant", "Mini PEKKA", "Musketeer", "Fireball", "Skeleton Army", "Arrows", "Knight", "Zap"]) ])
     (by decide),
   static_table_invariant.2.2.2.1
     ("<2000",
       [ ("attack", ["Hog Rider", "Knight", "Fire Spirits", "Zap", "Valkyrie", "Skeleton Army", "Arrows", "Musketeer"]),
         ("defense", ["Knight", "Mini PEKKA", "Archers", "Tombstone", "Arrows", "Fireball", "Baby Dragon", "Valkyrie"]),
         ("balance", ["Giant", "Mini PEKKA", "Musketeer", "Fireball", "Skeleton Army", "Arrows", "Knight", "Zap"]) ])
     (by decide)
     ("attack", ["Hog Rider", "Knight", "Fire Spirits", "Zap", "Valkyrie", "Skeleton Army", "Arrows", "Musketeer"])
     (by decide)⟩

/-- Claim C9: the request with bracket below 2000 and style attack
succeeds on the baseline handler with exactly the specified 8 deck names
in order (whatever the catalog snapshot, so in particular whatever icons
resolve), and the request with bracket 9999 fails with the 400
invalid-bracket error, returning no deck. -/
theorem worked_examples :
    ∀ cat : List Card,
      recommend "<2000" "attack" cat =
        .ok ((["Hog Rider", "Knight", "Fire Spirits", "Zap", "Valkyrie",
               "Skeleton Army", "Arrows", "Musketeer"]).map
              fun c => ⟨c, get_card_image c cat⟩) ∧
      recommend "9999" "attack" cat =
        .error ⟨400, "Invalid bracket. Use: " ++ pyListRepr (keysOf decks_by_bracket)⟩ :=
  fun _ => ⟨rfl, rfl⟩

/-- Claim C10: the masked-credential field of the diagnostics handler is
the credential's first 6 characters, the literal dots, and its last 4
characters; for any credential of at most 10 characters the two slices
cover every character, so every character of the credential occurs in the
masked field, while an 11-character credential can have a character (the
seventh) that the masked field hides. -/
theorem token_masked_coverage :
    (∀ (key : List Char) (cards : List Card) (err : Option String), key ≠ [] →
      (debug_clash key cards err).tokenMaskedField =
        key.take 6 ++ ['.', '.', '.'] ++ key.drop (key.length - 4)) ∧
    (∀ key : List Char, key.length ≤ 10 → ∀ c ∈ key, c ∈ token_masked key) ∧
    ('b' ∉ token_masked ("aaaaaabaaaa".toList)) := by
  refine ⟨?_, ?_, by decide⟩
  · intro key cards err hk
    simp only [debug_clash, token_masked, if_neg hk]
  · intro key hlen c hc
    rcases eq_or_ne key [] with hk | hk
    · subst hk
      simp at hc
    · rw [← List.take_append_drop 6 key] at hc
      have hmem : c ∈ key.take 6 ∨ c ∈ key.drop (key.length - 4) := by
        rcases List.mem_append.1 hc with h | h
        · exact Or.inl h
        · refine Or.inr ?_
          have hdd : (key.drop (key.length - 4)).drop (6 - (key.length - 4)) = key.drop 6 := by
            rw [List.drop_drop]
            congr 1
            omega
          rw [← hdd] at h
          exact List.drop_subset _ _ h
      simp only [token_masked, if_neg hk, List.mem_append]
      tauto

/-- Witness for C10: a 10-character credential's seventh character occurs
in the masked field, and the masked field of the diagnostics handler has
the slice shape. -/
theorem token_masked_coverage_wit :
    (debug_clash ("abcdefghij".toList) [] none).tokenMaskedField =
      ("abcdefghij".toList).take 6 ++ ['.', '.', '.'] ++
        ("abcdefghij".toList).drop (("abcdefghij".toList).length - 4) ∧
    ("abcdefghij".toList).length ≤ 10 ∧
    'g' ∈ token_masked ("abcdefghij".toList) :=
  ⟨token_masked_coverage.1 ("abcdefghij".toList) [] none (by decide),
   by decide,
   token_masked_coverage.2.1 ("abcdefghij".toList) (by decide) 'g' (by decide)⟩

end DeckRec
